import Mathlib

set_option maxRecDepth 8192

/-!
Verification development for the parameter validation and derivation pipeline of
seedtool (src/params.cpp).  The pipeline turns raw, untyped command-line option
strings into a validated configuration or rejects the invocation with a specific
diagnostic.  Errors are modelled as `Except String`; the error string is the
formatted `argp_error` message (format specifiers instantiated).  External
collaborators (the UR resource codec, standard input) are passed in as explicit
parameters.
-/

/-- The closed set of format kinds (`Format::Key` in the source). -/
inductive FormatKey where
  | random | hex | bits | cards | dice | base6 | base10 | ints | bip39 | slip39 | bc32
  deriving DecidableEq, Repr

/-- Modelled from the spec: `Format::key_for_string` is not under src/; the Format
Registry maps each supported CLI format name (spec section 6) to its key, and an
unrecognized name to no key. -/
def key_for_string (s : String) : Option FormatKey :=
  if s = "random" then some .random
  else if s = "hex" then some .hex
  else if s = "bits" then some .bits
  else if s = "cards" then some .cards
  else if s = "dice" then some .dice
  else if s = "base6" then some .base6
  else if s = "base10" then some .base10
  else if s = "ints" then some .ints
  else if s = "bip39" then some .bip39
  else if s = "slip39" then some .slip39
  else if s = "bc32" then some .bc32
  else none

/-- Modelled from the spec: the `name` field of each format descriptor (the format
constructors are not under src/); spec section 6 lists the CLI names of the formats. -/
def formatName : FormatKey → String
  | .random => "random"
  | .hex => "hex"
  | .bits => "bits"
  | .cards => "cards"
  | .dice => "dice"
  | .base6 => "base6"
  | .base10 => "base10"
  | .ints => "ints"
  | .bip39 => "bip39"
  | .slip39 => "slip39"
  | .bc32 => "bc32"

/-- Whitespace as classified by C `isspace` (used by `std::stoi` and `sscanf`). -/
def isSpaceChar (c : Char) : Bool :=
  c = ' ' ∨ c = '\t' ∨ c = '\n' ∨ c = '\r' ∨ c.toNat = 11 ∨ c.toNat = 12

/-- Drop leading whitespace characters. -/
def dropSpaces : List Char → List Char
  | [] => []
  | c :: cs => if isSpaceChar c then dropSpaces cs else c :: cs

/-- Split off the longest leading run of decimal digits. -/
def spanDigits : List Char → List Char × List Char
  | [] => ([], [])
  | c :: cs =>
    if c.isDigit then
      let p := spanDigits cs
      (c :: p.1, p.2)
    else ([], c :: cs)

/-- Value of a list of decimal digits, most significant first. -/
def digitsToNat (ds : List Char) : Nat :=
  ds.foldl (fun acc c => 10 * acc + (c.toNat - 48)) 0

/-- Scan a decimal integer from the front of a character list, C-style:
skip leading whitespace, accept one optional sign, then require at least one
digit and take the longest digit run.  Returns the value and the rest. -/
def scanIntFrom (cs : List Char) : Option (Int × List Char) :=
  match dropSpaces cs with
  | '-' :: rest =>
    match spanDigits rest with
    | ([], _) => none
    | (ds, r) => some (-(digitsToNat ds : Int), r)
  | '+' :: rest =>
    match spanDigits rest with
    | ([], _) => none
    | (ds, r) => some ((digitsToNat ds : Int), r)
  | t =>
    match spanDigits t with
    | ([], _) => none
    | (ds, r) => some ((digitsToNat ds : Int), r)

def INT_MAX : Int := 2147483647

def INT_MIN : Int := -2147483648

/-- Model of C++ `std::stoi` (base 10): skip leading whitespace, parse an optional
sign and the longest run of digits.  When no digits are found it throws
`std::invalid_argument` and when the value does not fit in `int` it throws
`std::out_of_range`; both carry the message "stoi", and `parse_opt` catches the
exception and re-reports `e.what()` via `argp_error`, so both are modelled as
`.error "stoi"`. -/
def stoi (s : String) : Except String Int :=
  match scanIntFrom s.toList with
  | none => .error "stoi"
  | some (v, _) => if v < INT_MIN ∨ v > INT_MAX then .error "stoi" else .ok v

/-- Model of `sscanf(s, "%zd-of-%zd", &threshold, &count)`: two decimal integers
separated by the literal text "-of-".  Returns `none` when fewer than two items
are assigned (`items != 2` in the source). -/
def scanGroupSpec (s : String) : Option (Int × Int) :=
  match scanIntFrom s.toList with
  | none => none
  | some (t, rest) =>
    match rest with
    | '-' :: 'o' :: 'f' :: '-' :: rest2 =>
      match scanIntFrom rest2 with
      | none => none
      | some (n, _) => some (t, n)
    | _ => none

/-- Conversion of a scanned signed value into the `size_t` fields of
`group_descriptor` (wrap-around modulo 2^64). -/
def toSizeT (i : Int) : Nat := (i % (2 ^ 64 : Int)).toNat

/-- One `T-of-N` group (the `threshold`/`count` fields of `group_descriptor`). -/
structure GroupDescriptor where
  threshold : Nat
  count : Nat
  deriving DecidableEq, Repr

/-- The verbatim, unvalidated option strings and flags collected by `parse_opt`. -/
structure RawOptions where
  count : String := ""
  random_deterministic : String := ""
  input_format : String := ""
  output_format : String := ""
  ints_low : String := ""
  ints_high : String := ""
  slip39_groups : List String := []
  slip39_groups_threshold : String := ""
  is_ur : Bool := false
  max_part_length : String := ""
  args : List String := []
  deriving DecidableEq, Repr

/-- The selected random number generator (`rng` field of `Params`). -/
inductive Rng where
  | crypto_random
  | deterministic_random (seed : String)
  deriving DecidableEq, Repr

/-- Result of `Params::validate_input_format`: either a concrete format descriptor
was constructed, or `--in ur` deferred resolution (`is_ur_in = true`, descriptor
still null). -/
inductive InputFormatRes where
  | fmt (k : FormatKey)
  | ur
  deriving DecidableEq, Repr

/-- Modelled from the spec: `FormatBIP39::is_seed_length_valid` is not under src/;
spec section 4.9 requires an even count within the bound named by the message in
params.cpp, [12-32]. -/
def FormatBIP39.is_seed_length_valid (count : Int) : Bool :=
  12 ≤ count ∧ count ≤ 32 ∧ count % 2 = 0

/-- Modelled from the spec: `FormatSLIP39::is_seed_length_valid` is not under src/;
spec section 4.11 requires an even count within the bound named by the message in
params.cpp, [16-32]. -/
def FormatSLIP39.is_seed_length_valid (count : Int) : Bool :=
  16 ≤ count ∧ count ≤ 32 ∧ count % 2 = 0

/-- Modelled from the spec: `MAX_GROUPS` is defined outside src/; spec section 4.11
allows at most a fixed maximum number of group specifiers, and the CLI help text
bounds the group threshold by 16. -/
def MAX_GROUPS : Nat := 16

/-- `Params::validate_count`: default 16 when no `--count` was given, otherwise
`stoi` of the raw string; then the [1-64] range check. -/
def Params.validate_count (raw : RawOptions) : Except String Int :=
  (if raw.count.isEmpty then Except.ok (16 : Int) else stoi raw.count).bind fun count =>
    if count < 1 ∨ count > 64 then .error "COUNT must be in [1-64]."
    else .ok count

/-- `Params::validate_deterministic`: deterministic generator seeded from the given
string when `--deterministic` was given, else the secure generator.  No error path. -/
def Params.validate_deterministic (raw : RawOptions) : Rng :=
  if ¬raw.random_deterministic.isEmpty then .deterministic_random raw.random_deterministic
  else .crypto_random

/-- `Params::validate_input_format`: empty defaults to random; the literal name
"ur" sets the deferred-resolution flag instead of picking a descriptor; otherwise
the name is looked up in the Format Registry, an unknown name being fatal. -/
def Params.validate_input_format (raw : RawOptions) : Except String InputFormatRes :=
  if raw.input_format.isEmpty then .ok (.fmt .random)
  else if raw.input_format = "ur" then .ok .ur
  else
    match key_for_string raw.input_format with
    | some k => .ok (.fmt k)
    | none => .error ("Unknown input format: " ++ raw.input_format)

/-- `Params::validate_output_format`: empty defaults to hex; otherwise Registry
lookup.  The switch in the source has no case for `Key::random`, so the name
"random" falls to the default branch and is an unknown output format. -/
def Params.validate_output_format (raw : RawOptions) : Except String FormatKey :=
  if raw.output_format.isEmpty then .ok .hex
  else
    match key_for_string raw.output_format with
    | some .random => .error ("Unknown output format: " ++ raw.output_format)
    | some k => .ok k
    | none => .error ("Unknown output format: " ++ raw.output_format)

/-- `Params::validate_output_for_input`: the eight-rule compatibility matrix,
evaluated in source order, accepting on the first match. -/
def Params.validate_output_for_input (is_ur_in : Bool) (input_format output_format : FormatKey) :
    Except String Unit :=
  if output_format = .hex then .ok ()
  else if output_format = .bc32 then .ok ()
  else if input_format = .random then .ok ()
  else if input_format = .hex then .ok ()
  else if input_format = .bc32 then .ok ()
  else if is_ur_in ∧ input_format = .bip39 ∧ output_format = .bip39 then .ok ()
  else if is_ur_in ∧ input_format = .slip39 ∧ output_format = .slip39 then .ok ()
  else .error ("Input format " ++ formatName input_format ++
    " cannot be used with output format " ++ formatName output_format)

/-- Modelled from the spec: the built-in default range of the small-integer-list
descriptor (`FormatInts` constructor is not under src/); the CLI help text in
params.cpp documents default low 1 and default high 9. -/
def FormatInts.default_low : Int := 1

/-- Modelled from the spec: see `FormatInts.default_low`. -/
def FormatInts.default_high : Int := 9

/-- `Params::validate_ints_specific`: when the output format is the ints scheme,
resolve low/high from raw overrides or the descriptor defaults and check
`0 <= low < high <= 255`; otherwise any override is a fatal error. -/
def Params.validate_ints_specific (raw : RawOptions) (output_format : FormatKey) :
    Except String (Int × Int) :=
  if output_format = .ints then
    (if raw.ints_low.isEmpty then Except.ok FormatInts.default_low
      else stoi raw.ints_low).bind fun low =>
      (if raw.ints_high.isEmpty then Except.ok FormatInts.default_high
        else stoi raw.ints_high).bind fun high =>
        if ¬(0 ≤ low ∧ low < high ∧ high ≤ 255) then
          .error "--low and --high must specify a range in [0-255]."
        else .ok (low, high)
  else
    if ¬raw.ints_low.isEmpty then
      .error "Option --low can only be used with the \"ints\" output format."
    else if ¬raw.ints_high.isEmpty then
      .error "Option --high can only be used with the \"ints\" output format."
    else .ok (FormatInts.default_low, FormatInts.default_high)

/-- `Params::validate_bip39_specific`: when the output format is the first
word-list scheme, the resolved count must satisfy its seed-length predicate. -/
def Params.validate_bip39_specific (output_format : FormatKey) (count : Int) :
    Except String Unit :=
  if output_format ≠ .bip39 then .ok ()
  else if ¬FormatBIP39.is_seed_length_valid count then
    .error "For BIP39 COUNT must be in [12-32] and even."
  else .ok ()

/-- `Params::parse_group_spec`: `sscanf` the `T-of-N` shape, then the bound check
`0 < threshold <= count <= 16`, then the `1-of-M, M > 1` rejection. -/
def Params.parse_group_spec (s : String) : Except String GroupDescriptor :=
  match scanGroupSpec s with
  | none => .error ("Could not parse group specifier: \"" ++ s ++ "\"")
  | some (ti, ni) =>
    let threshold := toSizeT ti
    let count := toSizeT ni
    if ¬(0 < threshold ∧ threshold ≤ count ∧ count ≤ 16) then
      .error ("Invalid group specifier \"" ++ s ++ "\": 1 <= N <= M <= 16")
    else if count > 1 ∧ threshold = 1 then
      .error "Invalid group specifier. 1-of-M groups where M > 1 are not supported."
    else .ok { threshold, count }

/-- `Params::validate_slip39_specific`: group options are rejected unless the
output format is the second word-list scheme; with that scheme, the seed-length
check runs first, then the group list is resolved (at most `MAX_GROUPS`
specifiers, an implicit 1-of-1 group when none were given, otherwise every
specifier parsed in order), then the groups-threshold (default 1) must satisfy
`0 < groups_threshold <= number of groups`. -/
def Params.validate_slip39_specific (raw : RawOptions) (output_format : FormatKey)
    (count : Int) : Except String (List GroupDescriptor × Int) :=
  if output_format ≠ .slip39 then
    if raw.slip39_groups.length > 0 then
      .error "Option --group can only be used with the \"slip39\" output format."
    else if ¬raw.slip39_groups_threshold.isEmpty then
      .error "Option --group-threshold can only be used with the \"slip39\" output format."
    else .ok ([], 1)
  else if ¬FormatSLIP39.is_seed_length_valid count then
    .error "For BIP39 COUNT must be in [16-32] and even."
  else
    (if raw.slip39_groups.length > MAX_GROUPS then
        Except.error ("There must be no more than " ++ toString MAX_GROUPS ++ " groups.")
      else if raw.slip39_groups.length = 0 then
        Except.ok [({ threshold := 1, count := 1 } : GroupDescriptor)]
      else
        raw.slip39_groups.mapM Params.parse_group_spec).bind fun groups =>
      (if raw.slip39_groups_threshold.isEmpty then Except.ok (1 : Int)
        else stoi raw.slip39_groups_threshold).bind fun groups_threshold =>
        if ¬(0 < groups_threshold ∧ groups_threshold ≤ (groups.length : Int)) then
          .error "Group threshold must be <= the number of groups."
        else .ok (groups, groups_threshold)

/-- `Params::validate_input`: the random input format rejects positional
arguments; every other input method reads the positional arguments, falling back
to the lines of standard input when none were given, and an input still empty is
fatal.  When `--in ur` deferred resolution, the acquired input is decoded as a
resource string (the codec is the external `urTypeOf`) and its type tag picks the
concrete input format; an unknown tag is fatal. -/
def Params.validate_input (urTypeOf : List String → String) (stdinLines : List String)
    (raw : RawOptions) (inputRes : InputFormatRes) : Except String (FormatKey × List String) :=
  if inputRes = .fmt .random then
    if ¬raw.args.isEmpty then
      .error "Do not provide arguments when using the random (default) input format."
    else .ok (.random, [])
  else
    let input := if raw.args.isEmpty then stdinLines else raw.args
    if input.isEmpty then .error "No input provided."
    else
      match inputRes with
      | .ur =>
        if urTypeOf input = "crypto-seed" then .ok (.hex, input)
        else if urTypeOf input = "crypto-bip39" then .ok (.bip39, input)
        else if urTypeOf input = "crypto-slip39" then .ok (.slip39, input)
        else .error "Unknown UR type."
      | .fmt k => .ok (k, input)

/-- `Params::validate_count_for_input_format`: `--count` is rejected outright for
hex input and for BC32 input, by mere presence of the raw string. -/
def Params.validate_count_for_input_format (raw : RawOptions) (input_format : FormatKey) :
    Except String Unit :=
  if input_format = .hex then
    if ¬raw.count.isEmpty then .error "The --count option is not available for hex input."
    else .ok ()
  else if input_format = .bc32 then
    if ¬raw.count.isEmpty then .error "The --count option is not available for BC32 input."
    else .ok ()
  else .ok ()

/-- `Params::validate_ur`: when `--ur` was given it may not be combined with
`--in ur`; the max part length is parsed from the optional argument or defaults
to 2500; and only hex, BIP39 and SLIP39 output formats accept the flag. -/
def Params.validate_ur (raw : RawOptions) (is_ur_in : Bool) (output_format : FormatKey) :
    Except String (Bool × Int) :=
  if raw.is_ur then
    if is_ur_in then
      .error "The --ur option may not be combined with the --in ur input method."
    else
      (if raw.max_part_length.isEmpty then Except.ok (2500 : Int)
        else stoi raw.max_part_length).bind fun mpl =>
        if output_format = .hex then .ok (true, mpl)
        else if output_format = .bip39 then .ok (true, mpl)
        else if output_format = .slip39 then .ok (true, mpl)
        else .error "The --ur option is only available for hex, BIP39 and SLIP39 output."
  else .ok (false, 0)

/-- The validated configuration produced by a successful run of the pipeline. -/
structure Config where
  count : Int
  rng : Rng
  is_ur_in : Bool
  input_format : FormatKey
  output_format : FormatKey
  input : List String
  ints_low : Int
  ints_high : Int
  slip39_groups : List GroupDescriptor
  groups_threshold : Int
  is_ur_out : Bool
  max_part_length : Int
  deriving DecidableEq, Repr

/-- `Params::validate`: the full pipeline, running the steps in source order with
fail-fast propagation (each `argp_error` terminates the run). -/
def Params.validate (urTypeOf : List String → String) (stdinLines : List String)
    (raw : RawOptions) : Except String Config := do
  let count ← Params.validate_count raw
  let rng := Params.validate_deterministic raw
  let inputRes ← Params.validate_input_format raw
  let is_ur_in : Bool := inputRes = InputFormatRes.ur
  let (input_format, input) ← Params.validate_input urTypeOf stdinLines raw inputRes
  Params.validate_count_for_input_format raw input_format
  let output_format ← Params.validate_output_format raw
  Params.validate_output_for_input is_ur_in input_format output_format
  let (ints_low, ints_high) ← Params.validate_ints_specific raw output_format
  Params.validate_bip39_specific output_format count
  let (slip39_groups, groups_threshold) ← Params.validate_slip39_specific raw output_format count
  let (is_ur_out, max_part_length) ← Params.validate_ur raw is_ur_in output_format
  .ok { count, rng, is_ur_in, input_format, output_format, input,
        ints_low, ints_high, slip39_groups, groups_threshold, is_ur_out, max_part_length }

deriving instance Fintype for FormatKey

deriving instance DecidableEq for Except

/-- C1: the input/output compatibility check accepts exactly when the output format
is hex or BC32, or the input format is random, hex or BC32, or the input arrived as
a resource string and input and output are the same word-list scheme; in every
other case it fails with the error naming both format names.  In particular,
word-list input that did not arrive as a resource string is never accepted by the
matching word-list output. -/
theorem C1_output_for_input_matrix :
    (∀ (is_ur_in : Bool) (i o : FormatKey),
      (Params.validate_output_for_input is_ur_in i o = .ok () ↔
        (o = .hex ∨ o = .bc32 ∨ i = .random ∨ i = .hex ∨ i = .bc32 ∨
         (is_ur_in = true ∧ i = .bip39 ∧ o = .bip39) ∨
         (is_ur_in = true ∧ i = .slip39 ∧ o = .slip39))) ∧
      (Params.validate_output_for_input is_ur_in i o = .ok () ∨
        Params.validate_output_for_input is_ur_in i o =
          .error ("Input format " ++ formatName i ++ " cannot be used with output format " ++
            formatName o))) ∧
    Params.validate_output_for_input false .bip39 .bip39 =
      .error "Input format bip39 cannot be used with output format bip39" ∧
    Params.validate_output_for_input false .slip39 .slip39 =
      .error "Input format slip39 cannot be used with output format slip39" := by
  exact ⟨by decide, rfl, rfl⟩

/-- C9: with SLIP39 output and a count failing the SLIP39 seed-length predicate,
the diagnostic emitted by the code is "For BIP39 COUNT must be in [16-32] and
even." — it names BIP39, not SLIP39, contradicting the requirement that errors
name the offending format.  Evaluated both at the single validation step and
through the whole pipeline (`--count 15 --out slip39`, no positional args). -/
theorem C9_slip39_length_message_names_bip39 :
    Params.validate_slip39_specific {} .slip39 15 =
      .error "For BIP39 COUNT must be in [16-32] and even." ∧
    Params.validate (fun _ => "") [] { count := "15", output_format := "slip39" } =
      .error "For BIP39 COUNT must be in [16-32] and even." := by
  exact ⟨rfl, rfl⟩

theorem exc_ok_bind {α β : Type} (a : α) (f : α → Except String β) :
    (Except.ok a >>= f : Except String β) = f a := rfl

theorem exc_error_bind {α β : Type} (e : String) (f : α → Except String β) :
    ((Except.error e : Except String α) >>= f) = Except.error e := rfl

theorem exc_bind_ok {α β : Type} (a : α) (f : α → Except String β) :
    (Except.ok a : Except String α).bind f = f a := rfl

theorem exc_bind_error {α β : Type} (e : String) (f : α → Except String β) :
    (Except.error e : Except String α).bind f = Except.error e := rfl

theorem isEmpty_false_of_ne_empty (s : String) (h : s ≠ "") : s.isEmpty = false := by
  rw [Bool.eq_false_iff]
  intro hc
  exact h ((String.isEmpty_iff s).mp hc)

theorem string_empty_isEmpty : ("" : String).isEmpty = true := rfl

theorem list_isEmpty_false_of_ne_nil {α : Type} {l : List α} (h : l ≠ []) :
    l.isEmpty = false := by
  cases l with
  | nil => exact absurd rfl h
  | cons a t => rfl

/-- C3: a group-spec string on which the `T-of-N` scan fails is rejected with the
"Could not parse group specifier" error naming the string; when the scan yields
`(T, N)` (as `size_t` values), parsing succeeds with exactly that pair when
`1 ≤ T ≤ N ≤ 16` and `N > 1 → T ≠ 1`, and otherwise fails with a fatal error;
boundary cases: "1-of-1" accepted, "1-of-2" rejected, "16-of-16" accepted,
"17-of-16" rejected. -/
theorem C3_parse_group_spec (s : String) :
    (scanGroupSpec s = none →
      Params.parse_group_spec s =
        .error ("Could not parse group specifier: \"" ++ s ++ "\"")) ∧
    (∀ ti ni, scanGroupSpec s = some (ti, ni) →
      (1 ≤ toSizeT ti ∧ toSizeT ti ≤ toSizeT ni ∧ toSizeT ni ≤ 16 ∧
          (1 < toSizeT ni → toSizeT ti ≠ 1) →
        Params.parse_group_spec s = .ok { threshold := toSizeT ti, count := toSizeT ni }) ∧
      (¬(1 ≤ toSizeT ti ∧ toSizeT ti ≤ toSizeT ni ∧ toSizeT ni ≤ 16 ∧
          (1 < toSizeT ni → toSizeT ti ≠ 1)) →
        ∃ e, Params.parse_group_spec s = .error e)) ∧
    Params.parse_group_spec "1-of-1" = .ok { threshold := 1, count := 1 } ∧
    Params.parse_group_spec "1-of-2" =
      .error "Invalid group specifier. 1-of-M groups where M > 1 are not supported." ∧
    Params.parse_group_spec "16-of-16" = .ok { threshold := 16, count := 16 } ∧
    Params.parse_group_spec "17-of-16" =
      .error "Invalid group specifier \"17-of-16\": 1 <= N <= M <= 16" := by
  refine ⟨?_, ?_, rfl, rfl, rfl, rfl⟩
  · intro h
    simp [Params.parse_group_spec, h]
  · intro ti ni h
    constructor
    · intro hb
      simp only [Params.parse_group_spec, h]
      have h1 : 0 < toSizeT ti ∧ toSizeT ti ≤ toSizeT ni ∧ toSizeT ni ≤ 16 :=
        ⟨hb.1, hb.2.1, hb.2.2.1⟩
      rw [if_neg (not_not_intro h1), if_neg (fun hc => hb.2.2.2 hc.1 hc.2)]
    · intro hb
      simp only [Params.parse_group_spec, h]
      by_cases h1 : 0 < toSizeT ti ∧ toSizeT ti ≤ toSizeT ni ∧ toSizeT ni ≤ 16
      · have h2 : toSizeT ni > 1 ∧ toSizeT ti = 1 := by
          by_contra hc
          exact hb ⟨h1.1, h1.2.1, h1.2.2, fun hn ht => hc ⟨hn, ht⟩⟩
        rw [if_neg (not_not_intro h1), if_pos h2]
        exact ⟨_, rfl⟩
      · rw [if_pos h1]
        exact ⟨_, rfl⟩

/-- C3 witness: the ill-shaped string "2-of3" is rejected with the error naming it. -/
theorem C3_parse_group_spec_witness :
    Params.parse_group_spec "2-of3" = .error "Could not parse group specifier: \"2-of3\"" :=
  (C3_parse_group_spec "2-of3").1 rfl

/-- C5 counterexample: the non-numeric count string "abc" makes `stoi` throw and
the exception is re-reported with its own message "stoi", not with the
count-range error; and "12abc", also not a numeral, is accepted as 12 because
`stoi` parses the longest leading integer prefix. -/
theorem C5_counterexample :
    Params.validate_count { count := "abc" } = .error "stoi" ∧
    "stoi" ≠ "COUNT must be in [1-64]." ∧
    Params.validate_count { count := "12abc" } = .ok 12 := by
  exact ⟨rfl, by decide, rfl⟩

/-- C5 (amended): an absent count resolves to 16; when `stoi` (C++ semantics: the
longest leading integer prefix) succeeds with a value in [1, 64] the value is
preserved exactly; when it succeeds with a value outside [1, 64] resolution fails
with the count-range error; and when `stoi` fails (no digits, or out of `int`
range) resolution fails fatally with the parse failure's own message. -/
theorem C5_count_resolution (raw : RawOptions) :
    (raw.count = "" → Params.validate_count raw = .ok 16) ∧
    (∀ v, stoi raw.count = .ok v → 1 ≤ v → v ≤ 64 → Params.validate_count raw = .ok v) ∧
    (∀ v, stoi raw.count = .ok v → (v < 1 ∨ 64 < v) →
      Params.validate_count raw = .error "COUNT must be in [1-64].") ∧
    (raw.count ≠ "" → ∀ e, stoi raw.count = .error e →
      Params.validate_count raw = .error e) := by
  refine ⟨?_, ?_, ?_, ?_⟩
  · intro h
    simp only [Params.validate_count, h]
    rfl
  · intro v hv h1 h64
    by_cases he : raw.count = ""
    · rw [he] at hv
      simp [stoi, scanIntFrom, dropSpaces, spanDigits] at hv
    · simp only [Params.validate_count, isEmpty_false_of_ne_empty raw.count he,
        Bool.false_eq_true, if_false, hv, exc_bind_ok]
      rw [if_neg (by omega)]
  · intro v hv hout
    by_cases he : raw.count = ""
    · rw [he] at hv
      simp [stoi, scanIntFrom, dropSpaces, spanDigits] at hv
    · simp only [Params.validate_count, isEmpty_false_of_ne_empty raw.count he,
        Bool.false_eq_true, if_false, hv, exc_bind_ok]
      rw [if_pos (by omega)]
  · intro he e hv
    simp only [Params.validate_count, isEmpty_false_of_ne_empty raw.count he,
      Bool.false_eq_true, if_false, hv, exc_bind_error]

/-- C5 witness: the count string "37" parses and is preserved exactly. -/
theorem C5_count_resolution_witness :
    Params.validate_count { count := "37" } = .ok 37 :=
  (C5_count_resolution { count := "37" }).2.1 37 rfl (by decide) (by decide)

/-- C6: the random input format rejects any positional argument; every other input
method falls back to the lines of standard input when no positional arguments were
given, and an input still empty after that is the fatal "No input provided."
error; when the deferred resource-input flag is set, the acquired input is decoded
as a resource string exactly once, after acquisition, and its type tag resolves
the concrete input format by the fixed mapping (crypto-seed to hex, crypto-bip39
to BIP39, crypto-slip39 to SLIP39), any other tag being the fatal unknown-
resource-type error. -/
theorem C6_validate_input (urTypeOf : List String → String) (stdinLines : List String)
    (raw : RawOptions) (inputRes : InputFormatRes) :
    (inputRes = .fmt .random → raw.args ≠ [] →
      Params.validate_input urTypeOf stdinLines raw inputRes =
        .error "Do not provide arguments when using the random (default) input format.") ∧
    (inputRes = .fmt .random → raw.args = [] →
      Params.validate_input urTypeOf stdinLines raw inputRes = .ok (.random, [])) ∧
    (inputRes ≠ .fmt .random → raw.args = [] → stdinLines = [] →
      Params.validate_input urTypeOf stdinLines raw inputRes = .error "No input provided.") ∧
    (∀ k, k ≠ .random → inputRes = .fmt k →
      (if raw.args = [] then stdinLines else raw.args) ≠ [] →
      Params.validate_input urTypeOf stdinLines raw inputRes =
        .ok (k, if raw.args = [] then stdinLines else raw.args)) ∧
    (inputRes = .ur →
      (if raw.args = [] then stdinLines else raw.args) ≠ [] →
      Params.validate_input urTypeOf stdinLines raw inputRes =
        (if urTypeOf (if raw.args = [] then stdinLines else raw.args) = "crypto-seed" then
          .ok (.hex, if raw.args = [] then stdinLines else raw.args)
        else if urTypeOf (if raw.args = [] then stdinLines else raw.args) = "crypto-bip39" then
          .ok (.bip39, if raw.args = [] then stdinLines else raw.args)
        else if urTypeOf (if raw.args = [] then stdinLines else raw.args) = "crypto-slip39" then
          .ok (.slip39, if raw.args = [] then stdinLines else raw.args)
        else .error "Unknown UR type.")) := by
  refine ⟨?_, ?_, ?_, ?_, ?_⟩
  · intro h hne
    subst h
    simp [Params.validate_input, list_isEmpty_false_of_ne_nil hne]
  · intro h he
    subst h
    simp [Params.validate_input, he]
  · intro h ha hs
    simp only [Params.validate_input, if_neg h]
    simp [ha, hs]
  · intro k hk h hne
    subst h
    have hnr : InputFormatRes.fmt k ≠ InputFormatRes.fmt .random := by
      intro hc
      cases hc
      exact hk rfl
    simp only [Params.validate_input, if_neg hnr]
    simp [hne]
  · intro h hne
    subst h
    have hnr : InputFormatRes.ur ≠ InputFormatRes.fmt .random := by
      intro hc
      cases hc
    simp only [Params.validate_input, if_neg hnr]
    simp [hne]

/-- C7: exactly when the output format is the ints scheme, the resolved low/high
(raw overrides when present, otherwise the built-in defaults) must satisfy
`0 <= low < high <= 255` or validation fails with the range error (low=0,high=255
accepted; low=high rejected; low>high rejected; high=256 rejected); when the
output format is not that scheme, supplying either override is itself a fatal
error, never silently ignored. -/
theorem C7_validate_ints (raw : RawOptions) (output_format : FormatKey) :
    (∀ lo hi,
      (if raw.ints_low.isEmpty then Except.ok FormatInts.default_low
        else stoi raw.ints_low) = Except.ok lo →
      (if raw.ints_high.isEmpty then Except.ok FormatInts.default_high
        else stoi raw.ints_high) = Except.ok hi →
      (0 ≤ lo ∧ lo < hi ∧ hi ≤ 255 →
        Params.validate_ints_specific raw .ints = .ok (lo, hi)) ∧
      (¬(0 ≤ lo ∧ lo < hi ∧ hi ≤ 255) →
        Params.validate_ints_specific raw .ints =
          .error "--low and --high must specify a range in [0-255].")) ∧
    (output_format ≠ .ints → raw.ints_low ≠ "" →
      Params.validate_ints_specific raw output_format =
        .error "Option --low can only be used with the \"ints\" output format.") ∧
    (output_format ≠ .ints → raw.ints_low = "" → raw.ints_high ≠ "" →
      Params.validate_ints_specific raw output_format =
        .error "Option --high can only be used with the \"ints\" output format.") ∧
    Params.validate_ints_specific { ints_low := "0", ints_high := "255" } .ints = .ok (0, 255) ∧
    Params.validate_ints_specific { ints_low := "7", ints_high := "7" } .ints =
      .error "--low and --high must specify a range in [0-255]." ∧
    Params.validate_ints_specific { ints_low := "8", ints_high := "7" } .ints =
      .error "--low and --high must specify a range in [0-255]." ∧
    Params.validate_ints_specific { ints_low := "0", ints_high := "256" } .ints =
      .error "--low and --high must specify a range in [0-255]." := by
  refine ⟨?_, ?_, ?_, rfl, rfl, rfl, rfl⟩
  · intro lo hi hlo hhi
    constructor
    · intro hb
      unfold Params.validate_ints_specific
      rw [if_pos rfl, hlo, exc_bind_ok, hhi, exc_bind_ok, if_neg (not_not_intro hb)]
    · intro hb
      unfold Params.validate_ints_specific
      rw [if_pos rfl, hlo, exc_bind_ok, hhi, exc_bind_ok, if_pos hb]
  · intro ho hl
    unfold Params.validate_ints_specific
    rw [if_neg ho, if_pos]
    rw [isEmpty_false_of_ne_empty raw.ints_low hl]
    exact Bool.false_ne_true
  · intro ho hl hh
    unfold Params.validate_ints_specific
    rw [if_neg ho, if_neg, if_pos]
    · rw [isEmpty_false_of_ne_empty raw.ints_high hh]
      exact Bool.false_ne_true
    · rw [hl]
      exact not_not_intro rfl

/-- C8: when the resource-encoding flag is set, combining it with resource-string
input is fatal; the max-part-length is parsed from the raw value when given and
defaults to 2500 otherwise; and the flag is accepted only with the hex, BIP39 or
SLIP39 output formats, any other output format being a fatal error naming the
incompatible usage. -/
theorem C8_validate_ur (raw : RawOptions) (is_ur_in : Bool) (output_format : FormatKey) :
    (raw.is_ur = true → is_ur_in = true →
      Params.validate_ur raw is_ur_in output_format =
        .error "The --ur option may not be combined with the --in ur input method.") ∧
    (raw.is_ur = true → is_ur_in = false → raw.max_part_length = "" →
      (output_format = .hex ∨ output_format = .bip39 ∨ output_format = .slip39) →
      Params.validate_ur raw is_ur_in output_format = .ok (true, 2500)) ∧
    (∀ m, raw.is_ur = true → is_ur_in = false → raw.max_part_length ≠ "" →
      stoi raw.max_part_length = .ok m →
      (output_format = .hex ∨ output_format = .bip39 ∨ output_format = .slip39) →
      Params.validate_ur raw is_ur_in output_format = .ok (true, m)) ∧
    (∀ m, raw.is_ur = true → is_ur_in = false →
      (if raw.max_part_length.isEmpty then Except.ok (2500 : Int)
        else stoi raw.max_part_length) = Except.ok m →
      output_format ≠ .hex → output_format ≠ .bip39 → output_format ≠ .slip39 →
      Params.validate_ur raw is_ur_in output_format =
        .error "The --ur option is only available for hex, BIP39 and SLIP39 output.") := by
  refine ⟨?_, ?_, ?_, ?_⟩
  · intro hu hin
    simp [Params.validate_ur, hu, hin]
  · intro hu hin hm ho
    have hme : raw.max_part_length.isEmpty = true := by rw [hm]; rfl
    rcases ho with h | h | h <;> subst h <;>
      simp [Params.validate_ur, hu, hin, hme, exc_bind_ok]
  · intro m hu hin hm hsm ho
    rcases ho with h | h | h <;> subst h <;>
      simp [Params.validate_ur, hu, hin, isEmpty_false_of_ne_empty raw.max_part_length hm,
        hsm, exc_bind_ok]
  · intro m hu hin hm h1 h2 h3
    unfold Params.validate_ur
    rw [hu, if_pos rfl, hin]
    rw [if_neg Bool.false_ne_true, hm, exc_bind_ok, if_neg h1, if_neg h2, if_neg h3]

/-- C10: the count-vs-input-format rejection is triggered by mere presence of a
non-empty raw count string, not by its value, and is evaluated against the input
format resolved after resource decoding: validation of the count/input-format
step succeeds exactly when no count string accompanies a hex or BC32 input
format, and through the whole pipeline an invocation with `--count 16` (the
default value), `--in ur` and a resource whose tag resolves to hex fails with the
hex count error. -/
theorem C10_count_presence (raw : RawOptions) (input_format : FormatKey) :
    ((Params.validate_count_for_input_format raw input_format = .ok () ↔
        ¬((input_format = .hex ∨ input_format = .bc32) ∧ raw.count ≠ "")) ∧
      (input_format = .hex → raw.count ≠ "" →
        Params.validate_count_for_input_format raw input_format =
          .error "The --count option is not available for hex input.") ∧
      (input_format = .bc32 → raw.count ≠ "" →
        Params.validate_count_for_input_format raw input_format =
          .error "The --count option is not available for BC32 input.")) ∧
    (∀ urTypeOf : List String → String, urTypeOf ["x"] = "crypto-seed" →
      Params.validate urTypeOf [] { count := "16", input_format := "ur", args := ["x"] } =
        .error "The --count option is not available for hex input.") := by
  constructor
  · refine ⟨?_, ?_, ?_⟩
    · by_cases hc : raw.count = ""
      · cases input_format <;>
          simp [Params.validate_count_for_input_format, hc, string_empty_isEmpty]
      · have hne := isEmpty_false_of_ne_empty raw.count hc
        cases input_format <;> simp [Params.validate_count_for_input_format, hne, hc]
    · intro h hcne
      subst h
      simp [Params.validate_count_for_input_format, isEmpty_false_of_ne_empty raw.count hcne]
    · intro h hcne
      subst h
      simp [Params.validate_count_for_input_format, isEmpty_false_of_ne_empty raw.count hcne]
  · intro urT h
    have h1 : Params.validate_count { count := "16", input_format := "ur", args := ["x"] } =
        .ok 16 := rfl
    have h2 : Params.validate_input_format { count := "16", input_format := "ur", args := ["x"] } =
        .ok .ur := rfl
    have h3 : Params.validate_input urT [] { count := "16", input_format := "ur", args := ["x"] }
        .ur = .ok (.hex, ["x"]) := by
      simp [Params.validate_input, h]
    have h4 : Params.validate_count_for_input_format
        { count := "16", input_format := "ur", args := ["x"] } .hex =
        .error "The --count option is not available for hex input." := rfl
    simp only [Params.validate, h1, h2, h3, h4, exc_ok_bind, exc_error_bind]

/-- C6 witness: concrete instances of the random-argument rejection and of the UR
tag resolution. -/
theorem C6_validate_input_witness :
    Params.validate_input (fun _ => "") [] { args := ["x"] } (.fmt .random) =
      .error "Do not provide arguments when using the random (default) input format." ∧
    Params.validate_input (fun _ => "crypto-bip39") [] { args := ["w"] } .ur =
      .ok (.bip39, ["w"]) := by
  constructor
  · exact (C6_validate_input (fun _ => "") [] { args := ["x"] } (.fmt .random)).1 rfl
      (by decide)
  · exact ((C6_validate_input (fun _ => "crypto-bip39") [] { args := ["w"] } .ur).2.2.2.2 rfl
      (by decide)).trans rfl

/-- C7 witness: overrides low=5 and high=10 with ints output resolve to (5, 10). -/
theorem C7_validate_ints_witness :
    Params.validate_ints_specific { ints_low := "5", ints_high := "10" } .ints = .ok (5, 10) :=
  ((C7_validate_ints { ints_low := "5", ints_high := "10" } .ints).1 5 10 rfl rfl).1 (by decide)

/-- C8 witness: the flag with hex output and no raw max part length defaults to 2500. -/
theorem C8_validate_ur_witness :
    Params.validate_ur { is_ur := true } false .hex = .ok (true, 2500) :=
  (C8_validate_ur { is_ur := true } false .hex).2.1 rfl rfl rfl (Or.inl rfl)

/-- C10 witness: the full pipeline rejects `--count 16 --in ur` with a crypto-seed
resource even though 16 is the default count value. -/
theorem C10_count_presence_witness :
    Params.validate (fun _ => "crypto-seed") []
      { count := "16", input_format := "ur", args := ["x"] } =
      .error "The --count option is not available for hex input." :=
  (C10_count_presence {} .random).2 (fun _ => "crypto-seed") rfl

/-- Parsing a list of group specifiers with `mapM` preserves the list length. -/
theorem mapM_parse_length (l : List String) (r : List GroupDescriptor)
    (h : l.mapM Params.parse_group_spec = .ok r) : r.length = l.length := by
  induction l generalizing r with
  | nil =>
    have hnil : ([] : List String).mapM Params.parse_group_spec = Except.ok [] := rfl
    rw [hnil] at h
    cases h
    rfl
  | cons a t ih =>
    rw [List.mapM_cons] at h
    cases hpa : Params.parse_group_spec a with
    | error e =>
      rw [hpa] at h
      simp [exc_error_bind] at h
    | ok g =>
      rw [hpa] at h
      cases hpt : t.mapM Params.parse_group_spec with
      | error e =>
        rw [hpt] at h
        simp [exc_ok_bind, exc_error_bind] at h
      | ok gs =>
        rw [hpt] at h
        simp [exc_ok_bind] at h
        subst h
        simp [ih gs hpt]

/-- C4: with SLIP39 output, zero group specifiers default to the single group
1-of-1 and the groups-threshold defaults to 1 when unspecified; validation
succeeds exactly when `1 <= groups_threshold <= number of groups` (with 3 groups:
threshold 4 rejected, 3 accepted, 0 rejected); more than `MAX_GROUPS` specifiers
is fatal; and with any other output format a `--group` or `--group-threshold`
option present is a fatal error. -/
theorem C4_validate_slip39 (raw : RawOptions) (output_format : FormatKey) (count : Int) :
    (output_format ≠ .slip39 → raw.slip39_groups ≠ [] →
      Params.validate_slip39_specific raw output_format count =
        .error "Option --group can only be used with the \"slip39\" output format.") ∧
    (output_format ≠ .slip39 → raw.slip39_groups = [] → raw.slip39_groups_threshold ≠ "" →
      Params.validate_slip39_specific raw output_format count =
        .error "Option --group-threshold can only be used with the \"slip39\" output format.") ∧
    (FormatSLIP39.is_seed_length_valid count = true → raw.slip39_groups.length > MAX_GROUPS →
      Params.validate_slip39_specific raw .slip39 count =
        .error "There must be no more than 16 groups.") ∧
    (FormatSLIP39.is_seed_length_valid count = true → raw.slip39_groups = [] →
      raw.slip39_groups_threshold = "" →
      Params.validate_slip39_specific raw .slip39 count =
        .ok ([{ threshold := 1, count := 1 }], 1)) ∧
    (∀ gs, FormatSLIP39.is_seed_length_valid count = true → raw.slip39_groups ≠ [] →
      raw.slip39_groups.length ≤ MAX_GROUPS →
      raw.slip39_groups.mapM Params.parse_group_spec = .ok gs →
      raw.slip39_groups_threshold = "" →
      Params.validate_slip39_specific raw .slip39 count = .ok (gs, 1)) ∧
    (∀ gs t, FormatSLIP39.is_seed_length_valid count = true → raw.slip39_groups ≠ [] →
      raw.slip39_groups.length ≤ MAX_GROUPS →
      raw.slip39_groups.mapM Params.parse_group_spec = .ok gs →
      raw.slip39_groups_threshold ≠ "" →
      stoi raw.slip39_groups_threshold = .ok t →
      ((Params.validate_slip39_specific raw .slip39 count = .ok (gs, t) ↔
          1 ≤ t ∧ t ≤ (gs.length : Int)) ∧
        (¬(1 ≤ t ∧ t ≤ (gs.length : Int)) →
          Params.validate_slip39_specific raw .slip39 count =
            .error "Group threshold must be <= the number of groups."))) ∧
    Params.validate_slip39_specific
      { slip39_groups := ["2-of-3", "2-of-3", "2-of-3"], slip39_groups_threshold := "4" }
      .slip39 16 = .error "Group threshold must be <= the number of groups." ∧
    Params.validate_slip39_specific
      { slip39_groups := ["2-of-3", "2-of-3", "2-of-3"], slip39_groups_threshold := "3" }
      .slip39 16 =
      .ok ([{ threshold := 2, count := 3 }, { threshold := 2, count := 3 },
        { threshold := 2, count := 3 }], 3) ∧
    Params.validate_slip39_specific
      { slip39_groups := ["2-of-3", "2-of-3", "2-of-3"], slip39_groups_threshold := "0" }
      .slip39 16 = .error "Group threshold must be <= the number of groups." := by
  refine ⟨?_, ?_, ?_, ?_, ?_, ?_, rfl, rfl, rfl⟩
  · intro ho hg
    unfold Params.validate_slip39_specific
    rw [if_pos ho, if_pos]
    exact List.length_pos.mpr hg
  · intro ho hg ht
    unfold Params.validate_slip39_specific
    rw [if_pos ho, if_neg, if_pos]
    · rw [isEmpty_false_of_ne_empty _ ht]
      exact Bool.false_ne_true
    · rw [hg]
      simp
  · intro hv hlen
    unfold Params.validate_slip39_specific
    rw [if_neg (not_not_intro rfl), hv, if_neg (not_not_intro rfl), if_pos hlen, exc_bind_error]
    rfl
  · intro hv hg ht
    unfold Params.validate_slip39_specific
    rw [if_neg (not_not_intro rfl), hv, if_neg (not_not_intro rfl), if_neg, if_pos, exc_bind_ok,
      ht, if_pos string_empty_isEmpty, exc_bind_ok, if_neg]
    · simp
    · rw [hg]
      rfl
    · rw [hg]
      simp
  · intro gs hv hg hle hmap ht
    have hlen : gs.length = raw.slip39_groups.length := mapM_parse_length _ _ hmap
    have hpos : raw.slip39_groups.length ≠ 0 := fun h => hg (List.length_eq_zero.mp h)
    unfold Params.validate_slip39_specific
    rw [if_neg (not_not_intro rfl), hv, if_neg (not_not_intro rfl), if_neg (by omega),
      if_neg hpos, hmap, exc_bind_ok, ht, if_pos string_empty_isEmpty, exc_bind_ok, if_neg]
    rw [not_not]
    constructor
    · omega
    · rw [hlen]
      omega
  · intro gs t hv hg hle hmap ht hstoi
    have hlen : gs.length = raw.slip39_groups.length := mapM_parse_length _ _ hmap
    have hpos : raw.slip39_groups.length ≠ 0 := fun h => hg (List.length_eq_zero.mp h)
    unfold Params.validate_slip39_specific
    rw [if_neg (not_not_intro rfl), hv, if_neg (not_not_intro rfl), if_neg (by omega),
      if_neg hpos, hmap, exc_bind_ok, isEmpty_false_of_ne_empty _ ht,
      if_neg Bool.false_ne_true, hstoi, exc_bind_ok]
    constructor
    · constructor
      · intro hok
        by_cases hb : 0 < t ∧ t ≤ (gs.length : Int)
        · exact ⟨by omega, hb.2⟩
        · rw [if_pos hb] at hok
          exact absurd hok (by simp)
      · intro hb
        rw [if_neg (not_not_intro ⟨by omega, hb.2⟩)]
    · intro hnb
      rw [if_pos (fun hc => hnb ⟨by omega, hc.2⟩)]

/-- C4 witness: SLIP39 output with no group options yields the implicit 1-of-1
group and groups-threshold 1. -/
theorem C4_validate_slip39_witness :
    Params.validate_slip39_specific {} .slip39 16 =
      .ok ([{ threshold := 1, count := 1 }], 1) :=
  (C4_validate_slip39 {} .slip39 16).2.2.2.1 rfl rfl rfl

/-- C2: the pipeline runs count, random source, input format, input
acquisition/resource decode, count-vs-input-format, output format, input/output
compatibility, integer-range, BIP39 seed length, SLIP39 groups and UR output
validation in that fixed order; whenever a step fails, the pipeline's result is
exactly that step's diagnostic (all later steps are skipped, so a record
violating several constraints reports the earliest failing step), and when every
step succeeds the full configuration is returned. -/
theorem C2_pipeline_fail_fast (urTypeOf : List String → String) (stdinLines : List String)
    (raw : RawOptions) :
    (∀ e, Params.validate_count raw = .error e →
      Params.validate urTypeOf stdinLines raw = .error e) ∧
    (∀ c e, Params.validate_count raw = .ok c →
      Params.validate_input_format raw = .error e →
      Params.validate urTypeOf stdinLines raw = .error e) ∧
    (∀ c r e, Params.validate_count raw = .ok c →
      Params.validate_input_format raw = .ok r →
      Params.validate_input urTypeOf stdinLines raw r = .error e →
      Params.validate urTypeOf stdinLines raw = .error e) ∧
    (∀ c r fmt inp e, Params.validate_count raw = .ok c →
      Params.validate_input_format raw = .ok r →
      Params.validate_input urTypeOf stdinLines raw r = .ok (fmt, inp) →
      Params.validate_count_for_input_format raw fmt = .error e →
      Params.validate urTypeOf stdinLines raw = .error e) ∧
    (∀ c r fmt inp e, Params.validate_count raw = .ok c →
      Params.validate_input_format raw = .ok r →
      Params.validate_input urTypeOf stdinLines raw r = .ok (fmt, inp) →
      Params.validate_count_for_input_format raw fmt = .ok () →
      Params.validate_output_format raw = .error e →
      Params.validate urTypeOf stdinLines raw = .error e) ∧
    (∀ c r fmt inp out e, Params.validate_count raw = .ok c →
      Params.validate_input_format raw = .ok r →
      Params.validate_input urTypeOf stdinLines raw r = .ok (fmt, inp) →
      Params.validate_count_for_input_format raw fmt = .ok () →
      Params.validate_output_format raw = .ok out →
      Params.validate_output_for_input (decide (r = InputFormatRes.ur)) fmt out = .error e →
      Params.validate urTypeOf stdinLines raw = .error e) ∧
    (∀ c r fmt inp out e, Params.validate_count raw = .ok c →
      Params.validate_input_format raw = .ok r →
      Params.validate_input urTypeOf stdinLines raw r = .ok (fmt, inp) →
      Params.validate_count_for_input_format raw fmt = .ok () →
      Params.validate_output_format raw = .ok out →
      Params.validate_output_for_input (decide (r = InputFormatRes.ur)) fmt out = .ok () →
      Params.validate_ints_specific raw out = .error e →
      Params.validate urTypeOf stdinLines raw = .error e) ∧
    (∀ c r fmt inp out lo hi e, Params.validate_count raw = .ok c →
      Params.validate_input_format raw = .ok r →
      Params.validate_input urTypeOf stdinLines raw r = .ok (fmt, inp) →
      Params.validate_count_for_input_format raw fmt = .ok () →
      Params.validate_output_format raw = .ok out →
      Params.validate_output_for_input (decide (r = InputFormatRes.ur)) fmt out = .ok () →
      Params.validate_ints_specific raw out = .ok (lo, hi) →
      Params.validate_bip39_specific out c = .error e →
      Params.validate urTypeOf stdinLines raw = .error e) ∧
    (∀ c r fmt inp out lo hi e, Params.validate_count raw = .ok c →
      Params.validate_input_format raw = .ok r →
      Params.validate_input urTypeOf stdinLines raw r = .ok (fmt, inp) →
      Params.validate_count_for_input_format raw fmt = .ok () →
      Params.validate_output_format raw = .ok out →
      Params.validate_output_for_input (decide (r = InputFormatRes.ur)) fmt out = .ok () →
      Params.validate_ints_specific raw out = .ok (lo, hi) →
      Params.validate_bip39_specific out c = .ok () →
      Params.validate_slip39_specific raw out c = .error e →
      Params.validate urTypeOf stdinLines raw = .error e) ∧
    (∀ c r fmt inp out lo hi gs t e, Params.validate_count raw = .ok c →
      Params.validate_input_format raw = .ok r →
      Params.validate_input urTypeOf stdinLines raw r = .ok (fmt, inp) →
      Params.validate_count_for_input_format raw fmt = .ok () →
      Params.validate_output_format raw = .ok out →
      Params.validate_output_for_input (decide (r = InputFormatRes.ur)) fmt out = .ok () →
      Params.validate_ints_specific raw out = .ok (lo, hi) →
      Params.validate_bip39_specific out c = .ok () →
      Params.validate_slip39_specific raw out c = .ok (gs, t) →
      Params.validate_ur raw (decide (r = InputFormatRes.ur)) out = .error e →
      Params.validate urTypeOf stdinLines raw = .error e) ∧
    (∀ c r fmt inp out lo hi gs t uo m, Params.validate_count raw = .ok c →
      Params.validate_input_format raw = .ok r →
      Params.validate_input urTypeOf stdinLines raw r = .ok (fmt, inp) →
      Params.validate_count_for_input_format raw fmt = .ok () →
      Params.validate_output_format raw = .ok out →
      Params.validate_output_for_input (decide (r = InputFormatRes.ur)) fmt out = .ok () →
      Params.validate_ints_specific raw out = .ok (lo, hi) →
      Params.validate_bip39_specific out c = .ok () →
      Params.validate_slip39_specific raw out c = .ok (gs, t) →
      Params.validate_ur raw (decide (r = InputFormatRes.ur)) out = .ok (uo, m) →
      Params.validate urTypeOf stdinLines raw =
        Except.ok
          { count := c, rng := Params.validate_deterministic raw,
            is_ur_in := decide (r = InputFormatRes.ur), input_format := fmt,
            output_format := out, input := inp, ints_low := lo, ints_high := hi,
            slip39_groups := gs, groups_threshold := t, is_ur_out := uo,
            max_part_length := m }) := by
  refine ⟨?_, ?_, ?_, ?_, ?_, ?_, ?_, ?_, ?_, ?_, ?_⟩
  · intro e h1
    simp only [Params.validate, h1, exc_error_bind, exc_ok_bind]
  · intro c e h1 h2
    simp only [Params.validate, h1, h2, exc_error_bind, exc_ok_bind]
  · intro c r e h1 h2 h3
    simp only [Params.validate, h1, h2, h3, exc_error_bind, exc_ok_bind]
  · intro c r fmt inp e h1 h2 h3 h4
    simp only [Params.validate, h1, h2, h3, h4, exc_error_bind, exc_ok_bind]
  · intro c r fmt inp e h1 h2 h3 h4 h5
    simp only [Params.validate, h1, h2, h3, h4, h5, exc_error_bind, exc_ok_bind]
  · intro c r fmt inp out e h1 h2 h3 h4 h5 h6
    simp only [Params.validate, h1, h2, h3, h4, h5, h6, exc_error_bind, exc_ok_bind]
  · intro c r fmt inp out e h1 h2 h3 h4 h5 h6 h7
    simp only [Params.validate, h1, h2, h3, h4, h5, h6, h7, exc_error_bind, exc_ok_bind]
  · intro c r fmt inp out lo hi e h1 h2 h3 h4 h5 h6 h7 h8
    simp only [Params.validate, h1, h2, h3, h4, h5, h6, h7, h8, exc_error_bind, exc_ok_bind]
  · intro c r fmt inp out lo hi e h1 h2 h3 h4 h5 h6 h7 h8 h9
    simp only [Params.validate, h1, h2, h3, h4, h5, h6, h7, h8, h9, exc_error_bind, exc_ok_bind]
  · intro c r fmt inp out lo hi gs t e h1 h2 h3 h4 h5 h6 h7 h8 h9 h10
    simp only [Params.validate, h1, h2, h3, h4, h5, h6, h7, h8, h9, h10, exc_error_bind,
      exc_ok_bind]
  · intro c r fmt inp out lo hi gs t uo m h1 h2 h3 h4 h5 h6 h7 h8 h9 h10
    simp only [Params.validate, h1, h2, h3, h4, h5, h6, h7, h8, h9, h10, exc_error_bind,
      exc_ok_bind]

/-- C2 witness: a record violating both the count range and the ints range
reports the earliest failing step's diagnostic, the count error. -/
theorem C2_pipeline_fail_fast_witness :
    Params.validate (fun _ => "") []
      { count := "99", output_format := "ints", ints_low := "9", ints_high := "3" } =
      .error "COUNT must be in [1-64]." :=
  (C2_pipeline_fail_fast (fun _ => "") []
    { count := "99", output_format := "ints", ints_low := "9", ints_high := "3" }).1
    "COUNT must be in [1-64]." rfl
